import Mathlib

/-!
Verification of `scripts/get-window-id.py` (tab-organizer repository).

The script queries the platform windowing service for the list of on-screen
window descriptors, scans them in enumeration order, and on the first
descriptor with `layer == 0` whose owner name contains "Chrome" or
"Chromium" prints either the window id (default mode) or a one-line JSON
bounds object (when `--bounds` is among the command-line arguments), then
exits with status 0.  If no descriptor matches it prints "Window not found"
to stderr and exits with status 1.

The embedding below models the platform data (Python dictionaries with
optional keys) as records of `Option`-typed fields, numeric dictionary
values as rationals (Python's `int()` truncates toward zero), and the
process outcome as a small inductive recording stdout, stderr and exit
status, with a separate constructor for an unhandled `KeyError`.
-/

/-- A bounds dictionary (`kCGWindowBounds`).  Each of the keys `X`, `Y`,
`Width`, `Height` may be absent; values are numeric (modelled as `ℚ`,
covering both Python ints and the fractional coordinates the platform can
supply). -/
structure WindowBounds where
  x : Option ℚ
  y : Option ℚ
  width : Option ℚ
  height : Option ℚ
deriving DecidableEq, Repr

/-- A window descriptor dictionary as returned by
`CGWindowListCopyWindowInfo`.  Every key the script reads may be absent:
`kCGWindowOwnerName` (text), `kCGWindowLayer` (integer),
`kCGWindowNumber` (numeric), `kCGWindowBounds` (a nested dictionary). -/
structure WindowDescriptor where
  ownerName : Option String
  layer : Option ℤ
  windowId : Option ℚ
  bounds : Option WindowBounds
deriving DecidableEq, Repr

/-- The empty bounds dictionary, the default in `w.get("kCGWindowBounds", {})`. -/
def emptyBounds : WindowBounds := ⟨none, none, none, none⟩

/-- Case-sensitive contiguous substring containment: Python's
`needle in hay` on strings. -/
def strContains (hay needle : String) : Bool :=
  decide (needle.data <:+: hay.data)

/-- Python's `int()` applied to a numeric value: truncation toward zero
(`Int.tdiv` is t-division, which truncates toward zero). -/
def truncInt (q : ℚ) : ℤ :=
  q.num.tdiv q.den

/-- The selection predicate of line 22 of the script:
`layer == 0 and ("Chrome" in str(name) or "Chromium" in str(name))`,
with `name = w.get("kCGWindowOwnerName", "")` and
`layer = w.get("kCGWindowLayer", 999)` (lines 20-21). -/
def matchesTarget (w : WindowDescriptor) : Bool :=
  (w.layer.getD 999 == 0) &&
    (strContains (w.ownerName.getD "") "Chrome" ||
     strContains (w.ownerName.getD "") "Chromium")

/-- The selection step of the script in isolation (the spec's `locate`):
first descriptor in enumeration order satisfying the predicate, if any. -/
def locate (ws : List WindowDescriptor) : Option WindowDescriptor :=
  ws.find? matchesTarget

/-- The spec's `OutputMode` enumeration. -/
inductive OutputMode where
  | idOnly
  | boundsJson
deriving DecidableEq, Repr

/-- Mode selection (line 24): `BoundsJson` iff the literal text `--bounds`
occurs among the command-line arguments. -/
def outputMode (argv : List String) : OutputMode :=
  if argv.contains "--bounds" then OutputMode.boundsJson else OutputMode.idOnly

/-- The single JSON line produced by
`json.dumps({"id": .., "x": .., "y": .., "width": .., "height": ..})`:
five fixed keys in insertion order, `", "` item separator, `": "`
key separator, plain integer values. -/
def boundsLine (i x y w h : ℤ) : String :=
  "\x7b\"id\": " ++ toString i ++ ", \"x\": " ++ toString x ++
    ", \"y\": " ++ toString y ++ ", \"width\": " ++ toString w ++
    ", \"height\": " ++ toString h ++ "\x7d"

/-- Process outcome: either normal termination (accumulated stdout text,
stderr text, exit status), or an unhandled `KeyError` naming the missing
dictionary key (no output is produced on either stream in that case). -/
inductive Outcome where
  | exited (stdout : String) (stderr : String) (code : ℕ)
  | keyError (missingKey : String)
deriving DecidableEq, Repr

/-- The body of the found-a-match branch (lines 23-39): compute
`wid = int(w["kCGWindowNumber"])` — an unguarded access raising `KeyError`
when the key is absent — then print either the JSON bounds line (with
`bounds = w.get("kCGWindowBounds", {})` and each coordinate
`int(bounds.get(K, 0))`) or the plain id, and `sys.exit(0)`. -/
def emitFound (argv : List String) (w : WindowDescriptor) : Outcome :=
  match w.windowId with
  | none => Outcome.keyError "kCGWindowNumber"
  | some q =>
    let wid := truncInt q
    if argv.contains "--bounds" then
      let b := w.bounds.getD emptyBounds
      Outcome.exited
        (boundsLine wid (truncInt (b.x.getD 0)) (truncInt (b.y.getD 0))
            (truncInt (b.width.getD 0)) (truncInt (b.height.getD 0)) ++ "\n")
        "" 0
    else
      Outcome.exited (toString wid ++ "\n") "" 0

/-- The `for w in windows` loop of `main` (lines 19-42): first matching
descriptor wins (the branch ends in `sys.exit(0)`); after a full scan with
no match, `print("Window not found", file=sys.stderr)` and `sys.exit(1)`. -/
def mainLoop (argv : List String) : List WindowDescriptor → Outcome
  | [] => Outcome.exited "" "Window not found\n" 1
  | w :: rest =>
    if matchesTarget w then emitFound argv w else mainLoop argv rest

/-- The whole of `main`: the windowing-service query supplies the
descriptor list, `sys.argv` the argument vector. -/
def pyMain (argv : List String) (ws : List WindowDescriptor) : Outcome :=
  mainLoop argv ws

/-- Rendering a found descriptor under an `OutputMode` (the spec's render
contract for `Found`), for stating that `main` factors as
select-then-render. -/
def renderFound (mode : OutputMode) (w : WindowDescriptor) : Outcome :=
  match w.windowId with
  | none => Outcome.keyError "kCGWindowNumber"
  | some q =>
    let wid := truncInt q
    match mode with
    | OutputMode.boundsJson =>
      let b := w.bounds.getD emptyBounds
      Outcome.exited
        (boundsLine wid (truncInt (b.x.getD 0)) (truncInt (b.y.getD 0))
            (truncInt (b.width.getD 0)) (truncInt (b.height.getD 0)) ++ "\n")
        "" 0
    | OutputMode.idOnly => Outcome.exited (toString wid ++ "\n") "" 0

/-- Rendering a selection result under an `OutputMode` (the spec's render
contract), for stating that `main` factors as select-then-render. -/
def renderResult (mode : OutputMode) : Option WindowDescriptor → Outcome
  | none => Outcome.exited "" "Window not found\n" 1
  | some w => renderFound mode w

/-! ### Helper lemmas -/

/-- The inline branch of the loop body renders the found descriptor exactly
as the mode-indexed render function does. -/
theorem emitFound_eq_renderFound (argv : List String) (w : WindowDescriptor) :
    emitFound argv w = renderFound (outputMode argv) w := by
  unfold emitFound renderFound outputMode
  cases w.windowId with
  | none => rfl
  | some q =>
    by_cases h : "--bounds" ∈ argv
    · simp [h]
    · simp [h]

/-- `main` factors as select-then-render: the loop is the composition of
`locate` with the mode-indexed rendering. -/
theorem mainLoop_eq_renderResult (argv : List String) (ws : List WindowDescriptor) :
    mainLoop argv ws = renderResult (outputMode argv) (locate ws) := by
  induction ws with
  | nil => rfl
  | cons w rest ih =>
    by_cases h : matchesTarget w
    · rw [mainLoop, if_pos h]
      rw [locate, List.find?_cons_of_pos _ h, renderResult]
      exact emitFound_eq_renderFound argv w
    · rw [mainLoop, if_neg h]
      rw [locate, List.find?_cons_of_neg _ (by simp [h])]
      exact ih

/-- `List.find?` returns the element at position `i` when it satisfies the
predicate and every earlier element does not. -/
theorem find?_eq_get_of_first {α : Type} (p : α → Bool) :
    ∀ (ws : List α) (i : ℕ) (hi : i < ws.length),
      p (ws.get ⟨i, hi⟩) = true →
      (∀ j (hj : j < i), p (ws.get ⟨j, hj.trans hi⟩) = false) →
      ws.find? p = some (ws.get ⟨i, hi⟩)
  | w :: _, 0, _, hm, _ => by
    have hm' : p w = true := hm
    rw [List.find?_cons_of_pos _ hm']
    rfl
  | w :: rest, i + 1, hi, hm, hfirst => by
    have h0 : p w = false := hfirst 0 (Nat.succ_pos i)
    rw [List.find?_cons_of_neg _ (by simp [h0])]
    exact find?_eq_get_of_first p rest i (Nat.lt_of_succ_lt_succ hi) hm
      (fun j hj => hfirst (j + 1) (Nat.succ_lt_succ hj))

/-- `truncInt` is truncation toward zero: floor for nonnegative arguments,
ceiling for negative ones (the behaviour of Python's `int()`). -/
theorem truncInt_eq_floor_or_ceil (q : ℚ) :
    truncInt q = if 0 ≤ q then ⌊q⌋ else ⌈q⌉ := by
  unfold truncInt
  by_cases h : 0 ≤ q
  · rw [if_pos h, Rat.floor_def]
    exact Int.tdiv_eq_ediv (Rat.num_nonneg.mpr h) (Int.natCast_nonneg _)
  · rw [if_neg h]
    have hq : (0 : ℚ) ≤ -q := by linarith [lt_of_not_le h]
    have hceil : ⌈q⌉ = -⌊-q⌋ := by rw [Int.floor_neg, neg_neg]
    have hfl : ⌊-q⌋ = (-q.num) / (q.den : ℤ) := by
      rw [Rat.floor_def, Rat.neg_num, Rat.neg_den]
    have hnum : (0 : ℤ) ≤ -q.num := by
      have h2 := Rat.num_nonneg.mpr hq
      rwa [Rat.neg_num] at h2
    have htd : (-q.num).tdiv q.den = (-q.num) / (q.den : ℤ) :=
      Int.tdiv_eq_ediv hnum (Int.natCast_nonneg _)
    have hneg : q.num.tdiv q.den = -((-q.num).tdiv q.den) := by
      rw [Int.neg_tdiv, neg_neg]
    rw [hneg, htd, ← hfl, hceil]

/-- `truncInt` is the identity on integers (Python's `int()` applied to an
`int` value). -/
theorem truncInt_intCast (n : ℤ) : truncInt ((n : ℤ) : ℚ) = n := by
  unfold truncInt
  rw [Rat.num_intCast, Rat.den_intCast]
  exact Int.tdiv_one n

/-- When the selection finds a descriptor carrying a window id and
`--bounds` is among the arguments, `main` prints the JSON bounds line and
exits 0. -/
theorem pyMain_found_bounds (argv : List String) (ws : List WindowDescriptor)
    (w : WindowDescriptor) (q : ℚ)
    (hsel : locate ws = some w) (hid : w.windowId = some q)
    (hmode : "--bounds" ∈ argv) :
    pyMain argv ws =
      Outcome.exited
        (boundsLine (truncInt q) (truncInt ((w.bounds.getD emptyBounds).x.getD 0))
            (truncInt ((w.bounds.getD emptyBounds).y.getD 0))
            (truncInt ((w.bounds.getD emptyBounds).width.getD 0))
            (truncInt ((w.bounds.getD emptyBounds).height.getD 0)) ++ "\n")
        "" 0 := by
  have hm : outputMode argv = OutputMode.boundsJson := by
    unfold outputMode
    simp [hmode]
  rw [pyMain, mainLoop_eq_renderResult, hsel, hm]
  simp [renderResult, renderFound, hid]

/-- When the selection finds a descriptor carrying a window id and
`--bounds` is absent, `main` prints the plain id line and exits 0. -/
theorem pyMain_found_id (argv : List String) (ws : List WindowDescriptor)
    (w : WindowDescriptor) (q : ℚ)
    (hsel : locate ws = some w) (hid : w.windowId = some q)
    (hmode : "--bounds" ∉ argv) :
    pyMain argv ws = Outcome.exited (toString (truncInt q) ++ "\n") "" 0 := by
  have hm : outputMode argv = OutputMode.idOnly := by
    unfold outputMode
    simp [hmode]
  rw [pyMain, mainLoop_eq_renderResult, hsel, hm]
  simp [renderResult, renderFound, hid]

/-! ### Claims -/

/-- C1: for every descriptor list containing at least one descriptor with
`layer == 0` and an owner name containing "Chrome" or "Chromium", the
program selects exactly the first such descriptor in enumeration order —
never a later one — where a descriptor matches iff `layer == 0` and its
owner name contains at least one of the two literal fragments
(case-sensitive substring containment). -/
theorem locate_selects_first_match (ws : List WindowDescriptor) (i : ℕ)
    (hi : i < ws.length)
    (hm : matchesTarget (ws.get ⟨i, hi⟩) = true)
    (hfirst : ∀ j (hj : j < i), matchesTarget (ws.get ⟨j, hj.trans hi⟩) = false) :
    locate ws = some (ws.get ⟨i, hi⟩) ∧
    ∀ w : WindowDescriptor,
      matchesTarget w = true ↔
        (w.layer.getD 999 = 0 ∧
          ("Chrome".data <:+: (w.ownerName.getD "").data ∨
           "Chromium".data <:+: (w.ownerName.getD "").data)) := by
  constructor
  · exact find?_eq_get_of_first matchesTarget ws i hi hm hfirst
  · intro w
    simp [matchesTarget, strContains, Bool.and_eq_true, Bool.or_eq_true,
      decide_eq_true_iff, beq_iff_eq]

theorem locate_selects_first_match_witness :
    locate
        [⟨some "Finder", some 0, some 7, none⟩,
         ⟨some "Google Chrome", some 0, some 42, none⟩,
         ⟨some "Chromium Helper", some 0, some 99, none⟩] =
      some ⟨some "Google Chrome", some 0, some 42, none⟩ := by
  have hi : 1 <
      ([⟨some "Finder", some 0, some 7, none⟩,
        ⟨some "Google Chrome", some 0, some 42, none⟩,
        ⟨some "Chromium Helper", some 0, some 99, none⟩] :
          List WindowDescriptor).length := by
    decide
  have hm : matchesTarget
      (([⟨some "Finder", some 0, some 7, none⟩,
         ⟨some "Google Chrome", some 0, some 42, none⟩,
         ⟨some "Chromium Helper", some 0, some 99, none⟩] :
            List WindowDescriptor).get ⟨1, hi⟩) = true := by
    show matchesTarget ⟨some "Google Chrome", some 0, some 42, none⟩ = true
    decide
  have hfirst : ∀ j (hj : j < 1),
      matchesTarget
        (([⟨some "Finder", some 0, some 7, none⟩,
           ⟨some "Google Chrome", some 0, some 42, none⟩,
           ⟨some "Chromium Helper", some 0, some 99, none⟩] :
              List WindowDescriptor).get ⟨j, hj.trans hi⟩) = false := by
    intro j hj
    have hj0 : j = 0 := Nat.lt_one_iff.mp hj
    subst hj0
    show matchesTarget ⟨some "Finder", some 0, some 7, none⟩ = false
    decide
  exact (locate_selects_first_match _ 1 hi hm hfirst).1

/-- C2: for every descriptor list in which no descriptor matches
(including the empty list), the program writes exactly the diagnostic line
"Window not found" to the error stream, writes nothing to standard output,
and terminates with the failure exit status 1 (non-zero). -/
theorem no_match_not_found (argv : List String) (ws : List WindowDescriptor)
    (h : ∀ w ∈ ws, matchesTarget w = false) :
    pyMain argv ws = Outcome.exited "" "Window not found\n" 1 := by
  have hn : locate ws = none := by
    unfold locate
    rw [List.find?_eq_none]
    intro w hw
    simp [h w hw]
  rw [pyMain, mainLoop_eq_renderResult, hn]
  rfl

theorem no_match_not_found_witness :
    pyMain ["--bounds"]
        [⟨some "Finder", some 0, some 7, none⟩,
         ⟨some "Google Chrome", some 4, some 42, none⟩] =
      Outcome.exited "" "Window not found\n" 1 ∧
    pyMain [] [] = Outcome.exited "" "Window not found\n" 1 :=
  ⟨no_match_not_found _ _ (by decide), no_match_not_found _ _ (by decide)⟩

/-- C3: for every matched descriptor carrying an integer window id, in
BoundsJson mode the program writes to standard output a single line that
is exactly `{"id": <int>, "x": <int>, "y": <int>, "width": <int>,
"height": <int>}` — five keys in that fixed order, id equal to the
descriptor's window id, the other four taken from its bounds with each
missing bound field defaulting to 0, all plain integers — and terminates
with success status; and the integer conversion is the identity on
integers. -/
theorem bounds_mode_json_output (argv : List String) (ws : List WindowDescriptor)
    (w : WindowDescriptor) (wid : ℤ)
    (hsel : locate ws = some w)
    (hid : w.windowId = some ((wid : ℤ) : ℚ))
    (hmode : "--bounds" ∈ argv) :
    pyMain argv ws =
      Outcome.exited
        (boundsLine wid (truncInt ((w.bounds.getD emptyBounds).x.getD 0))
            (truncInt ((w.bounds.getD emptyBounds).y.getD 0))
            (truncInt ((w.bounds.getD emptyBounds).width.getD 0))
            (truncInt ((w.bounds.getD emptyBounds).height.getD 0)) ++ "\n")
        "" 0 ∧
    ∀ n : ℤ, truncInt ((n : ℤ) : ℚ) = n := by
  refine ⟨?_, truncInt_intCast⟩
  have h := pyMain_found_bounds argv ws w ((wid : ℤ) : ℚ) hsel hid hmode
  rwa [truncInt_intCast] at h

theorem bounds_mode_json_output_witness :
    pyMain ["--bounds"]
        [⟨some "Finder", some 0, some 1, none⟩,
         ⟨some "Google Chrome", some 0, some 42,
           some ⟨some 10, some 20, some 800, some 600⟩⟩] =
      Outcome.exited
        "\x7b\"id\": 42, \"x\": 10, \"y\": 20, \"width\": 800, \"height\": 600\x7d\n"
        "" 0 := by
  have h :=
    (bounds_mode_json_output ["--bounds"]
        [⟨some "Finder", some 0, some 1, none⟩,
         ⟨some "Google Chrome", some 0, some 42,
           some ⟨some 10, some 20, some 800, some 600⟩⟩]
        ⟨some "Google Chrome", some 0, some 42,
          some ⟨some 10, some 20, some 800, some 600⟩⟩
        42 (by decide) (by decide) (by decide)).1
  exact h.trans (by decide)

/-- C4: for every matched descriptor carrying an integer window id, in
IdOnly mode the program writes the decimal integer window id followed by a
newline to standard output — and nothing else on standard output — and
terminates with success exit status 0. -/
theorem id_mode_output (argv : List String) (ws : List WindowDescriptor)
    (w : WindowDescriptor) (wid : ℤ)
    (hsel : locate ws = some w)
    (hid : w.windowId = some ((wid : ℤ) : ℚ))
    (hmode : "--bounds" ∉ argv) :
    pyMain argv ws = Outcome.exited (toString wid ++ "\n") "" 0 := by
  have h := pyMain_found_id argv ws w ((wid : ℤ) : ℚ) hsel hid hmode
  rwa [truncInt_intCast] at h

theorem id_mode_output_witness :
    pyMain []
        [⟨some "Finder", some 0, some 1, none⟩,
         ⟨some "Google Chrome", some 0, some 42,
           some ⟨some 10, some 20, some 800, some 600⟩⟩] =
      Outcome.exited "42\n" "" 0 := by
  have h :=
    id_mode_output []
      [⟨some "Finder", some 0, some 1, none⟩,
       ⟨some "Google Chrome", some 0, some 42,
         some ⟨some 10, some 20, some 800, some 600⟩⟩]
      ⟨some "Google Chrome", some 0, some 42,
        some ⟨some 10, some 20, some 800, some 600⟩⟩
      42 (by decide) (by decide) (by decide)
  exact h.trans (by decide)

/-- C5: for every argument vector, the output mode is BoundsJson if and
only if the literal argument text `--bounds` appears anywhere among the
command-line arguments; otherwise the mode is IdOnly. -/
theorem mode_selection_iff (argv : List String) :
    (outputMode argv = OutputMode.boundsJson ↔ "--bounds" ∈ argv) ∧
    (outputMode argv = OutputMode.idOnly ↔ "--bounds" ∉ argv) := by
  unfold outputMode
  by_cases h : "--bounds" ∈ argv
  · simp [h]
  · simp [h]

/-- C6: for every matched descriptor that lacks the bounds field entirely,
BoundsJson mode emits a JSON object whose x, y, width and height values
are all 0, the id still taken from the descriptor's window id. -/
theorem missing_bounds_all_zero (argv : List String) (ws : List WindowDescriptor)
    (w : WindowDescriptor) (wid : ℤ)
    (hsel : locate ws = some w)
    (hid : w.windowId = some ((wid : ℤ) : ℚ))
    (hb : w.bounds = none)
    (hmode : "--bounds" ∈ argv) :
    pyMain argv ws = Outcome.exited (boundsLine wid 0 0 0 0 ++ "\n") "" 0 := by
  have h := pyMain_found_bounds argv ws w ((wid : ℤ) : ℚ) hsel hid hmode
  rw [hb] at h
  rwa [truncInt_intCast] at h

theorem missing_bounds_all_zero_witness :
    pyMain ["--bounds"] [⟨some "Chromium Helper", some 0, some 99, none⟩] =
      Outcome.exited
        "\x7b\"id\": 99, \"x\": 0, \"y\": 0, \"width\": 0, \"height\": 0\x7d\n"
        "" 0 := by
  have h :=
    missing_bounds_all_zero ["--bounds"]
      [⟨some "Chromium Helper", some 0, some 99, none⟩]
      ⟨some "Chromium Helper", some 0, some 99, none⟩
      99 (by decide) (by decide) rfl (by decide)
  exact h.trans (by decide)

/-- C7: for every descriptor list and every pair of argument vectors, both
runs factor through the same selection result `locate ws`: which
descriptor is chosen, or that none is, is identical in both runs, and the
output mode influences only the rendering of the selection result. -/
theorem selection_mode_independent (argv₁ argv₂ : List String)
    (ws : List WindowDescriptor) :
    pyMain argv₁ ws = renderResult (outputMode argv₁) (locate ws) ∧
    pyMain argv₂ ws = renderResult (outputMode argv₂) (locate ws) :=
  ⟨mainLoop_eq_renderResult argv₁ ws, mainLoop_eq_renderResult argv₂ ws⟩

/-- C8: for every descriptor that lacks the layer field, the selection
predicate rejects it regardless of its owner name: the absent layer is
treated as the default value 999, which is never equal to 0, so such a
descriptor can never be the selected window. -/
theorem missing_layer_rejected (w : WindowDescriptor) (h : w.layer = none) :
    w.layer.getD 999 = 999 ∧ w.layer.getD 999 ≠ 0 ∧ matchesTarget w = false ∧
      ∀ ws : List WindowDescriptor, locate ws ≠ some w := by
  have h999 : w.layer.getD 999 = 999 := by rw [h]; rfl
  have hm : matchesTarget w = false := by
    simp [matchesTarget, h]
  refine ⟨h999, by rw [h999]; decide, hm, ?_⟩
  intro ws hws
  have hp : matchesTarget w = true := List.find?_some hws
  rw [hm] at hp
  exact Bool.false_ne_true hp

theorem missing_layer_rejected_witness :
    matchesTarget ⟨some "Google Chrome", none, some 5, none⟩ = false ∧
    locate [⟨some "Google Chrome", none, some 5, none⟩] ≠
      some ⟨some "Google Chrome", none, some 5, none⟩ :=
  ⟨(missing_layer_rejected ⟨some "Google Chrome", none, some 5, none⟩ rfl).2.2.1,
   (missing_layer_rejected ⟨some "Google Chrome", none, some 5, none⟩ rfl).2.2.2
     [⟨some "Google Chrome", none, some 5, none⟩]⟩

/-- C9: the window-id lookup on the selected descriptor is an unguarded
dictionary access: when the first matching descriptor carries a window id
the access cannot fail and the normal output path is taken (something is
printed to standard output, nothing to standard error, exit status 0);
when it lacks that field the program raises an unhandled KeyError for
`kCGWindowNumber` instead of printing output or the "Window not found"
diagnostic. -/
theorem window_id_access_unguarded (argv : List String)
    (ws : List WindowDescriptor) (w : WindowDescriptor)
    (hsel : locate ws = some w) :
    (∀ q : ℚ, w.windowId = some q →
        ∃ s : String, pyMain argv ws = Outcome.exited s "" 0) ∧
    (w.windowId = none →
        pyMain argv ws = Outcome.keyError "kCGWindowNumber" ∧
        pyMain argv ws ≠ Outcome.exited "" "Window not found\n" 1) := by
  have hfac : pyMain argv ws = renderFound (outputMode argv) w := by
    rw [pyMain, mainLoop_eq_renderResult, hsel]
    rfl
  constructor
  · intro q hq
    rw [hfac]
    unfold renderFound
    rw [hq]
    cases outputMode argv
    · exact ⟨_, rfl⟩
    · exact ⟨_, rfl⟩
  · intro hq
    have hke : pyMain argv ws = Outcome.keyError "kCGWindowNumber" := by
      rw [hfac]
      simp [renderFound, hq]
    refine ⟨hke, ?_⟩
    rw [hke]
    intro hcontra
    exact Outcome.noConfusion hcontra

theorem window_id_access_unguarded_witness :
    pyMain [] [⟨some "Google Chrome", some 0, some 42, none⟩] =
      Outcome.exited "42\n" "" 0 ∧
    pyMain [] [⟨some "Google Chrome", some 0, none, none⟩] =
      Outcome.keyError "kCGWindowNumber" := by
  constructor
  · have h :=
      (window_id_access_unguarded []
          [⟨some "Google Chrome", some 0, some 42, none⟩]
          ⟨some "Google Chrome", some 0, some 42, none⟩
          (by decide)).1 42 rfl
    obtain ⟨s, hs⟩ := h
    rw [hs]
    have hv : pyMain [] [⟨some "Google Chrome", some 0, some 42, none⟩] =
        Outcome.exited "42\n" "" 0 := by decide
    rw [hs] at hv
    exact hv
  · exact ((window_id_access_unguarded []
        [⟨some "Google Chrome", some 0, none, none⟩]
        ⟨some "Google Chrome", some 0, none, none⟩
        (by decide)).2 rfl).1

/-- C10: every value emitted — the window id and each of the four bounds
values — is passed through integer conversion before printing: when the
platform supplies a non-integer numeric value the emitted value is its
truncation toward zero (floor for nonnegative values, ceiling for
negative ones), and the printed output consists of plain integers. -/
theorem emitted_values_truncated (argv : List String)
    (ws : List WindowDescriptor) (w : WindowDescriptor) (q : ℚ)
    (b : WindowBounds)
    (hsel : locate ws = some w) (hid : w.windowId = some q)
    (hb : w.bounds = some b) (hmode : "--bounds" ∈ argv) :
    pyMain argv ws =
      Outcome.exited
        (boundsLine (truncInt q) (truncInt (b.x.getD 0)) (truncInt (b.y.getD 0))
            (truncInt (b.width.getD 0)) (truncInt (b.height.getD 0)) ++ "\n")
        "" 0 ∧
    (∀ argvPlain : List String, "--bounds" ∉ argvPlain →
        pyMain argvPlain ws = Outcome.exited (toString (truncInt q) ++ "\n") "" 0) ∧
    ∀ r : ℚ, truncInt r = if 0 ≤ r then ⌊r⌋ else ⌈r⌉ := by
  refine ⟨?_, ?_, truncInt_eq_floor_or_ceil⟩
  · have h := pyMain_found_bounds argv ws w q hsel hid hmode
    rw [hb] at h
    simpa using h
  · intro argvPlain hplain
    exact pyMain_found_id argvPlain ws w q hsel hid hplain

theorem emitted_values_truncated_witness :
    pyMain ["--bounds"]
        [⟨some "Chromium", some 0, some (mkRat 11 2),
          some ⟨some (mkRat 21 2), some (mkRat (-7) 2), some 800, none⟩⟩] =
      Outcome.exited
        "\x7b\"id\": 5, \"x\": 10, \"y\": -3, \"width\": 800, \"height\": 0\x7d\n"
        "" 0 ∧
    truncInt (mkRat (-7) 2) = -3 ∧ ⌊mkRat (-7) 2⌋ = -4 := by
  refine ⟨?_, by decide, ?_⟩
  · have h :=
      (emitted_values_truncated ["--bounds"]
          [⟨some "Chromium", some 0, some (mkRat 11 2),
            some ⟨some (mkRat 21 2), some (mkRat (-7) 2), some 800, none⟩⟩]
          ⟨some "Chromium", some 0, some (mkRat 11 2),
            some ⟨some (mkRat 21 2), some (mkRat (-7) 2), some 800, none⟩⟩
          (mkRat 11 2)
          ⟨some (mkRat 21 2), some (mkRat (-7) 2), some 800, none⟩
          (by decide) rfl rfl (by decide)).1
    exact h.trans (by decide)
  · rw [Rat.floor_def]
    decide

example : truncInt (mkRat 21 2) = 10 := by decide
example : truncInt (mkRat (-21) 2) = -10 := by decide
example : strContains "Google Chrome" "Chrome" = true := by decide
example : strContains "Chromium Helper" "Chromium" = true := by decide
example : strContains "Chromium" "Chrome" = false := by decide
example :
    pyMain [] [⟨some "Google Chrome", some 0, some 42, none⟩] =
      Outcome.exited "42\n" "" 0 := by decide
example :
    pyMain ["--bounds"]
        [⟨some "Google Chrome", some 0, some 42,
          some ⟨some 10, some 20, some 800, some 600⟩⟩] =
      Outcome.exited
        "\x7b\"id\": 42, \"x\": 10, \"y\": 20, \"width\": 800, \"height\": 600\x7d\n"
        "" 0 := by decide
